import Mathlib

/-!
Verification of the client-side log write path (`liblog/logd_write.c`).

The C file is embedded shallowly:

* C strings are modelled as `List Char` (no embedded NUL; `strlen` is
  `List.length`); `snprintf` into an `n`-byte buffer is `List.take (n-1)`
  (the last byte holds the terminator).
* the four-slot `log_fds` table and the `write_to_log` function pointer
  are a `LogState`; the three possible values of the pointer
  (`__write_to_log_init`, `__write_to_log_kernel`, `__write_to_log_null`)
  are the inductive `DispatchFn`.
* the transport adapter is an oracle: `OpenResults` gives the return
  values of the four `open` calls made by the one-time initialization
  (negative = failure, as in C), and `wv : Int → List WvOutcome` gives,
  per file descriptor, the sequence of `writev` outcomes the retry loop
  will observe.  The set of currently-open descriptors created by this
  library is tracked in `LogState.openFds` (`open` success appends,
  `close` erases; `close(-1)` fails and removes nothing).
* threads are interleaved at the granularity of whole `write` calls;
  the mutex plus double-checked re-read of `write_to_log` in
  `__write_to_log_init` then becomes the `s.wtl = .init` re-check of
  `initBody`.
-/

namespace LogdWrite

/-- Channel identifiers from `log/logger.h`: `LOG_ID_MAIN = 0`,
`LOG_ID_RADIO = 1`, `LOG_ID_EVENTS = 2`, `LOG_ID_SYSTEM = 3`,
`LOG_ID_MAX = 4` (the `log_fds` table has four slots). -/
def idMain : Nat := 0

def idRadio : Nat := 1

def idEvents : Nat := 2

def idSystem : Nat := 3

def idMax : Nat := 4

/-- `errno` value for an interrupted system call. -/
def EINTR : Nat := 4

/-- The value `EBADF` returned (positively, as in the source) by
`__write_to_log_kernel` for an out-of-range channel id. -/
def EBADF : Int := 9

/-- The three possible values of the `write_to_log` function pointer
(`logd_write.c:53-54`): the lazy initializer, the kernel writer, the
null writer. -/
inductive DispatchFn
  | init
  | kernel
  | null
deriving DecidableEq

/-- The process-wide mutable state of `logd_write.c`: the dispatch
function pointer `write_to_log`, the `log_fds[4]` table, and (for
resource accounting) the list of file descriptors this library holds
open. -/
structure LogState where
  wtl : DispatchFn
  fdMain : Int
  fdRadio : Int
  fdEvents : Int
  fdSystem : Int
  openFds : List Int
deriving DecidableEq

/-- The state at process start: `write_to_log = __write_to_log_init`,
`log_fds = { -1, -1, -1, -1 }`, no descriptor open. -/
def logInitialState : LogState :=
  { wtl := DispatchFn.init
    fdMain := -1
    fdRadio := -1
    fdEvents := -1
    fdSystem := -1
    openFds := [] }

/-- The four results `log_open` returns during one initialization
attempt (negative = the open failed, as in C). -/
structure OpenResults where
  main : Int
  radio : Int
  events : Int
  system : Int
deriving DecidableEq

/-- One outcome of a `log_writev` call: a nonnegative byte count, or
failure (`ret = -1`) with the given `errno`. -/
inductive WvOutcome
  | ok (n : Nat)
  | err (e : Nat)
deriving DecidableEq

/-- The `ssize_t` value `log_writev` returned for this outcome. -/
def wvRet : WvOutcome → Int
  | WvOutcome.ok n => (n : Int)
  | WvOutcome.err _ => -1

/-- `ret < 0 && errno == EINTR`: the (only) retry condition of the
do/while loop in `__write_to_log_kernel` (`logd_write.c:204-206`). -/
def isEintrFail : WvOutcome → Bool
  | WvOutcome.ok _ => false
  | WvOutcome.err e => e == EINTR

/-- The do/while retry loop of `__write_to_log_kernel`: take `writev`
outcomes until one is not an EINTR failure and return its value.
`none` models the loop never terminating (every outcome the transport
ever produces is an EINTR failure). -/
def writevLoop : List WvOutcome → Option Int
  | [] => none
  | o :: rest => if isEintrFail o then writevLoop rest else some (wvRet o)

/-- `log_fds[(int)log_id]` for `log_id < LOG_ID_MAX`. -/
def fdOf (s : LogState) (id : Nat) : Int :=
  if id = idMain then s.fdMain
  else if id = idRadio then s.fdRadio
  else if id = idEvents then s.fdEvents
  else s.fdSystem

/-- `__write_to_log_kernel` (`logd_write.c:193-209`): out-of-range ids
return `EBADF` (positive, without touching the transport); otherwise the
EINTR retry loop runs on the channel's descriptor. -/
def write_to_log_kernel (wv : Int → List WvOutcome) (s : LogState) (id : Nat) : Option Int :=
  if id < idMax then writevLoop (wv (fdOf s id)) else some EBADF

/-- `__write_to_log_null` (`logd_write.c:188-191`): `-1` for every
channel id. -/
def write_to_log_null (_id : Nat) : Int := -1

/-- A successful `log_open` adds its descriptor to the set held open;
a failed one (negative return) adds nothing. -/
def doOpen (fd : Int) (opened : List Int) : List Int :=
  if 0 ≤ fd then opened ++ [fd] else opened

/-- `log_close(fd)`: the descriptor is no longer held open
(`close(-1)` fails and removes nothing). -/
def doClose (fd : Int) (opened : List Int) : List Int := opened.erase fd

/-- The body of `__write_to_log_init` (`logd_write.c:211-239`), run
under the init lock: re-check the pointer; open Main, Radio, Events,
System; switch to the kernel writer; if any of Main/Radio/Events failed,
close those three, reset their slots to `-1` and switch to the null
writer; finally, if System's slot is negative, alias it to Main's. -/
def initBody (r : OpenResults) (s : LogState) : LogState :=
  if s.wtl = DispatchFn.init then
    let opened := doOpen r.system (doOpen r.events (doOpen r.radio (doOpen r.main s.openFds)))
    let s1 : LogState :=
      { wtl := DispatchFn.kernel
        fdMain := r.main
        fdRadio := r.radio
        fdEvents := r.events
        fdSystem := r.system
        openFds := opened }
    let s2 : LogState :=
      if s1.fdMain < 0 ∨ s1.fdRadio < 0 ∨ s1.fdEvents < 0 then
        { s1 with
          wtl := DispatchFn.null
          fdMain := -1
          fdRadio := -1
          fdEvents := -1
          openFds := doClose s1.fdEvents (doClose s1.fdRadio (doClose s1.fdMain s1.openFds)) }
      else s1
    if s2.fdSystem < 0 then { s2 with fdSystem := s2.fdMain } else s2
  else s

/-- Dispatch through the current (non-init) value of `write_to_log`;
`none` in the `.init` arm is unreachable from `writeCall`. -/
def dispatchCurrent (wv : Int → List WvOutcome) (s : LogState) (id : Nat) : Option Int :=
  match s.wtl with
  | DispatchFn.kernel => write_to_log_kernel wv s id
  | DispatchFn.null => some (write_to_log_null id)
  | DispatchFn.init => none

/-- One call through the `write_to_log` pointer: the initializer runs
its body and then performs the caller's write with the newly installed
function (`logd_write.c:245`); the other two leave the state alone. -/
def writeCall (r : OpenResults) (wv : Int → List WvOutcome) (s : LogState) (id : Nat) :
    LogState × Option Int :=
  match s.wtl with
  | DispatchFn.init =>
      let s2 := initBody r s
      (s2, dispatchCurrent wv s2 id)
  | DispatchFn.kernel => (s, write_to_log_kernel wv s id)
  | DispatchFn.null => (s, some (write_to_log_null id))

/-- The state after a sequence of write calls. -/
def runWrites (r : OpenResults) (wv : Int → List WvOutcome) : LogState → List Nat → LogState
  | s, [] => s
  | s, i :: is => runWrites r wv (writeCall r wv s i).1 is

/-- How many calls of the sequence execute the one-time initialization
body (the locked re-check passes exactly when the pointer still is the
initializer). -/
def numInitRuns (r : OpenResults) (wv : Int → List WvOutcome) : LogState → List Nat → Nat
  | _, [] => 0
  | s, i :: is =>
      (if s.wtl = DispatchFn.init then 1 else 0) + numInitRuns r wv (writeCall r wv s i).1 is

/-- A C string, modelled as its characters before the terminating NUL. -/
abbrev CStr := List Char

/-- The characters of a Lean string literal, as a C string. -/
def str (s : String) : CStr := s.data

/-- `LOG_BUF_SIZE` (`logd_write.c:40`). -/
def LOG_BUF_SIZE : Nat := 1024

/-- `ANDROID_LOG_FATAL`, the fatal priority from `cutils/log.h`. -/
def ANDROID_LOG_FATAL : Nat := 7

/-- The denylist test of `__android_log_write` (`logd_write.c:258-278`):
`strcmp` is equality, `strncmp(tag, p, strlen p) == 0` is "`p` is a
prefix of `tag`". -/
def isDenylistedWrite (tag : CStr) : Bool :=
  tag == str "HTC_RIL" ||
  (str "RIL").isPrefixOf tag ||
  (str "IMS").isPrefixOf tag ||
  tag == str "AT" ||
  tag == str "GSM" ||
  tag == str "STK" ||
  tag == str "CDMA" ||
  tag == str "PHONE" ||
  tag == str "SMS" ||
  tag == str "KINETO" ||
  (str "KIPC").isPrefixOf tag ||
  (str "Kineto").isPrefixOf tag ||
  (str "QCRIL").isPrefixOf tag ||
  (str "QC-RIL").isPrefixOf tag ||
  (str "QC-QMI").isPrefixOf tag ||
  (str "QC-ONCRPC").isPrefixOf tag ||
  (str "QC-DSI").isPrefixOf tag ||
  tag == str "QC-NETMGR-LIB" ||
  tag == str "QC-QDP" ||
  tag == str "Diag_Lib"

/-- The denylist test of `__android_log_buf_write`
(`logd_write.c:305-321`): the same list except that `"QC-NETMGR-LIB"`,
`"QC-QDP"` and `"Diag_Lib"` are absent. -/
def isDenylistedBuf (tag : CStr) : Bool :=
  tag == str "HTC_RIL" ||
  (str "RIL").isPrefixOf tag ||
  (str "IMS").isPrefixOf tag ||
  tag == str "AT" ||
  tag == str "GSM" ||
  tag == str "STK" ||
  tag == str "CDMA" ||
  tag == str "PHONE" ||
  tag == str "SMS" ||
  tag == str "KINETO" ||
  (str "KIPC").isPrefixOf tag ||
  (str "Kineto").isPrefixOf tag ||
  (str "QCRIL").isPrefixOf tag ||
  (str "QC-RIL").isPrefixOf tag ||
  (str "QC-QMI").isPrefixOf tag ||
  (str "QC-ONCRPC").isPrefixOf tag ||
  (str "QC-DSI").isPrefixOf tag

/-- `snprintf(tmp_tag, sizeof(tmp_tag), "use-Rlog/RLOG-%s", tag)` with
`char tmp_tag[32]`: at most 31 characters are stored, the 32nd byte is
the terminator. -/
def rewriteTag (tag : CStr) : CStr := (str "use-Rlog/RLOG-" ++ tag).take 31

/-- One segment of a framed record: the 1-byte priority, or a
NUL-terminated C string. -/
inductive SegData
  | prio (p : Nat)
  | cstr (s : CStr)
deriving DecidableEq

/-- The `iov_len` of a segment: 1 for the priority byte,
`strlen + 1` for a NUL-terminated string. -/
def segLen : SegData → Nat
  | SegData.prio _ => 1
  | SegData.cstr s => s.length + 1

/-- The pure part of `__android_log_write` (`logd_write.c:248-292`):
substitute `""` for a NULL tag, apply the reroute denylist (the channel
starts as Main and may become Radio, the tag may be rewritten), and
frame the record as priority byte, tag, message.  Returns the channel
id actually targeted and the three segments. -/
def android_log_write_model (prio : Nat) (tag : Option CStr) (msg : CStr) :
    Nat × List SegData :=
  let t := tag.getD []
  let p :=
    if isDenylistedWrite t then (idRadio, rewriteTag t) else (idMain, t)
  (p.1, [SegData.prio prio, SegData.cstr p.2, SegData.cstr msg])

/-- The pure part of `__android_log_buf_write` (`logd_write.c:295-336`):
like `android_log_write_model` but the caller chooses the channel, and
the reroute applies only when the requested channel is not Radio (and
with the shorter denylist). -/
def android_log_buf_write_model (bufID : Nat) (prio : Nat) (tag : Option CStr) (msg : CStr) :
    Nat × List SegData :=
  let t := tag.getD []
  let p :=
    if bufID ≠ idRadio ∧ isDenylistedBuf t then (idRadio, rewriteTag t) else (bufID, t)
  (p.1, [SegData.prio prio, SegData.cstr p.2, SegData.cstr msg])

/-- `__android_log_write` end to end: frame (with reroute) and hand the
record to the dispatcher. -/
def android_log_write_full (r : OpenResults) (wv : Int → List WvOutcome) (s : LogState)
    (prio : Nat) (tag : Option CStr) (msg : CStr) : LogState × Option Int :=
  writeCall r wv s (android_log_write_model prio tag msg).1

/-- The message `__android_log_assert` composes (`logd_write.c:377-391`):
the formatted text if a format is given (`vsnprintf` into the 1024-byte
buffer keeps at most 1023 characters), else
`"Assertion failed: <cond>"` through `snprintf` into the same buffer,
else the fixed fallback string. -/
def assertMessage (cond : Option CStr) (fmtMsg : Option CStr) : CStr :=
  match fmtMsg with
  | some m => m.take (LOG_BUF_SIZE - 1)
  | none =>
      match cond with
      | some c => (str "Assertion failed: " ++ c).take (LOG_BUF_SIZE - 1)
      | none => str "Unspecified assertion failed"

/-- How a call to `__android_log_assert` ends.  `returns` would mean
control comes back to the caller; the source never does that — after
the write it executes `__builtin_trap()` unconditionally
(`logd_write.c:395`), recorded by `trap` together with the priority,
tag and message it wrote and the status that write produced. -/
inductive AssertOutcome
  | returns (status : Option Int)
  | trap (prio : Nat) (tag : Option CStr) (msg : CStr) (writeStatus : Option Int)
deriving DecidableEq

/-- `__android_log_assert` (`logd_write.c:372-396`): compose the
message, write it through `__android_log_write` at the fatal priority,
then trap. -/
def android_log_assert (r : OpenResults) (wv : Int → List WvOutcome) (s : LogState)
    (cond : Option CStr) (tag : Option CStr) (fmtMsg : Option CStr) : AssertOutcome :=
  let buf := assertMessage cond fmtMsg
  let st := (android_log_write_full r wv s ANDROID_LOG_FATAL tag buf).2
  AssertOutcome.trap ANDROID_LOG_FATAL tag buf st

/-- The three values of `g_log_status` (`logd_write.c:66-68`). -/
inductive GLogStatus
  | uninit
  | notAvail
  | avail
deriving DecidableEq

/-- `__android_log_dev_available` (`logd_write.c:69-79`).  `probe` is
the outcome `access("/dev/log/main", W_OK) == 0` would have if the call
probed.  Returns the boolean result, the new `g_log_status`, and
whether the call actually probed the device. -/
def android_log_dev_available (probe : Bool) (g : GLogStatus) :
    Bool × GLogStatus × Bool :=
  if g = GLogStatus.uninit then
    let g2 := if probe then GLogStatus.avail else GLogStatus.notAvail
    (g2 == GLogStatus.avail, g2, true)
  else
    (g == GLogStatus.avail, g, false)

/-- Run a sequence of `__android_log_dev_available` calls, the `i`-th
with probe outcome `ps[i]`; collect each call's (result, probed?) pair. -/
def runDevAvail : GLogStatus → List Bool → List (Bool × Bool)
  | _, [] => []
  | g, p :: ps =>
      let o := android_log_dev_available p g
      (o.1, o.2.2) :: runDevAvail o.2.1 ps

/-! Helper lemmas shared by the claim theorems. -/

lemma initBody_wtl_of_init (r : OpenResults) (s : LogState) (h : s.wtl = DispatchFn.init) :
    (initBody r s).wtl = DispatchFn.kernel ∨ (initBody r s).wtl = DispatchFn.null := by
  unfold initBody
  rw [if_pos h]
  dsimp only
  split
  · split <;> simp
  · split <;> simp

lemma writeCall_fst_of_ne_init (r : OpenResults) (wv : Int → List WvOutcome) (s : LogState)
    (i : Nat) (h : s.wtl ≠ DispatchFn.init) : (writeCall r wv s i).1 = s := by
  unfold writeCall
  cases hw : s.wtl
  · exact absurd hw h
  · rfl
  · rfl

lemma writeCall_wtl_ne_init (r : OpenResults) (wv : Int → List WvOutcome) (s : LogState)
    (i : Nat) : (writeCall r wv s i).1.wtl ≠ DispatchFn.init := by
  unfold writeCall
  cases hw : s.wtl
  · dsimp only
    rcases initBody_wtl_of_init r s hw with h2 | h2 <;> simp [h2]
  · simp [hw]
  · simp [hw]

lemma runWrites_of_ne_init (r : OpenResults) (wv : Int → List WvOutcome) (s : LogState)
    (ids : List Nat) (h : s.wtl ≠ DispatchFn.init) : runWrites r wv s ids = s := by
  induction ids with
  | nil => rfl
  | cons i is ih =>
      unfold runWrites
      rw [writeCall_fst_of_ne_init r wv s i h]
      exact ih

lemma numInitRuns_of_ne_init (r : OpenResults) (wv : Int → List WvOutcome) (s : LogState)
    (ids : List Nat) (h : s.wtl ≠ DispatchFn.init) : numInitRuns r wv s ids = 0 := by
  induction ids with
  | nil => rfl
  | cons i is ih =>
      unfold numInitRuns
      rw [if_neg h, writeCall_fst_of_ne_init r wv s i h]
      simpa using ih

lemma numInitRuns_le_one (r : OpenResults) (wv : Int → List WvOutcome) (s : LogState)
    (ids : List Nat) : numInitRuns r wv s ids ≤ 1 := by
  cases ids with
  | nil => simp [numInitRuns]
  | cons i is =>
      unfold numInitRuns
      by_cases h : s.wtl = DispatchFn.init
      · rw [if_pos h,
          numInitRuns_of_ne_init r wv _ is (writeCall_wtl_ne_init r wv s i)]
      · rw [if_neg h, writeCall_fst_of_ne_init r wv s i h,
          numInitRuns_of_ne_init r wv s is h]
        omega

lemma doOpen_cons (x a : Int) (l : List Int) : doOpen x (a :: l) = a :: doOpen x l := by
  unfold doOpen
  split <;> rfl

lemma doOpen_nil_pos (x : Int) (h : 0 ≤ x) : doOpen x [] = [x] := by
  unfold doOpen
  rw [if_pos h]
  rfl

lemma doOpen_nil_neg (x : Int) (h : ¬0 ≤ x) : doOpen x [] = [] := by
  unfold doOpen
  rw [if_neg h]

lemma doOpen_nonneg (x : Int) (l : List Int) (h : ∀ y ∈ l, 0 ≤ y) :
    ∀ y ∈ doOpen x l, 0 ≤ y := by
  unfold doOpen
  by_cases hx : 0 ≤ x
  · rw [if_pos hx]
    intro y hy
    rcases List.mem_append.1 hy with h1 | h1
    · exact h y h1
    · have : y = x := by simpa using h1
      omega
  · rw [if_neg hx]
    exact h

lemma doClose_neg (t : Int) (l : List Int) (ht : t < 0) (h : ∀ y ∈ l, 0 ≤ y) :
    doClose t l = l := by
  unfold doClose
  refine List.erase_of_not_mem fun hm => ?_
  have := h t hm
  omega

lemma doClose_head (t : Int) (l : List Int) : doClose t (t :: l) = l :=
  List.erase_cons_head t l

/-- What the failed-initialization cleanup leaves open: the four opens
followed by the three closes of Main, Radio, Events keep exactly the
System descriptor, when its open succeeded. -/
lemma cleanup_openFds (r : OpenResults) :
    doClose r.events (doClose r.radio (doClose r.main
      (doOpen r.system (doOpen r.events (doOpen r.radio (doOpen r.main [])))))) =
    (if 0 ≤ r.system then [r.system] else []) := by
  have h1 : ∀ y ∈ doOpen r.system ([] : List Int), 0 ≤ y :=
    doOpen_nonneg _ _ (by simp)
  have h2 : ∀ y ∈ doOpen r.system (doOpen r.events ([] : List Int)), 0 ≤ y :=
    doOpen_nonneg _ _ (doOpen_nonneg _ _ (by simp))
  have h3 : ∀ y ∈ doOpen r.system (doOpen r.events (doOpen r.radio ([] : List Int))), 0 ≤ y :=
    doOpen_nonneg _ _ (doOpen_nonneg _ _ (doOpen_nonneg _ _ (by simp)))
  have step1 : doClose r.main
      (doOpen r.system (doOpen r.events (doOpen r.radio (doOpen r.main [])))) =
      doOpen r.system (doOpen r.events (doOpen r.radio [])) := by
    by_cases hm : 0 ≤ r.main
    · rw [doOpen_nil_pos _ hm]
      simp only [doOpen_cons]
      exact doClose_head _ _
    · rw [doOpen_nil_neg _ hm]
      exact doClose_neg _ _ (by omega) h3
  have step2 : doClose r.radio
      (doOpen r.system (doOpen r.events (doOpen r.radio []))) =
      doOpen r.system (doOpen r.events []) := by
    by_cases hr : 0 ≤ r.radio
    · rw [doOpen_nil_pos _ hr]
      simp only [doOpen_cons]
      exact doClose_head _ _
    · rw [doOpen_nil_neg _ hr]
      exact doClose_neg _ _ (by omega) h2
  have step3 : doClose r.events (doOpen r.system (doOpen r.events [])) =
      doOpen r.system [] := by
    by_cases he : 0 ≤ r.events
    · rw [doOpen_nil_pos _ he]
      simp only [doOpen_cons]
      exact doClose_head _ _
    · rw [doOpen_nil_neg _ he]
      exact doClose_neg _ _ (by omega) h1
  rw [step1, step2, step3]
  by_cases hs : 0 ≤ r.system
  · rw [doOpen_nil_pos _ hs, if_pos hs]
  · rw [doOpen_nil_neg _ hs, if_neg hs]

lemma writevLoop_eintr_append (pre : List WvOutcome) (l : List WvOutcome)
    (h : ∀ o ∈ pre, isEintrFail o = true) : writevLoop (pre ++ l) = writevLoop l := by
  induction pre with
  | nil => rfl
  | cons o os ih =>
      have ho : isEintrFail o = true := h o (by simp)
      simp only [List.cons_append, writevLoop, ho, if_pos]
      exact ih fun x hx => h x (by simp [hx])

lemma runDevAvail_avail (ps : List Bool) :
    runDevAvail GLogStatus.avail ps = ps.map fun _ => (true, false) := by
  induction ps with
  | nil => rfl
  | cons p ps ih => simp [runDevAvail, android_log_dev_available, ih]

lemma runDevAvail_notAvail (ps : List Bool) :
    runDevAvail GLogStatus.notAvail ps = ps.map fun _ => (false, false) := by
  induction ps with
  | nil => rfl
  | cons p ps ih => simp [runDevAvail, android_log_dev_available, ih]

/-- C1: the dispatcher is a process-wide state machine with exactly the
three states init (Uninitialized), kernel (LiveKernel) and null (Null);
the only transitions a write call can make are init → kernel and
init → null (otherwise the state is left completely unchanged); for
every sequence of write calls the one-time initialization body (guarded
by the locked re-check of the pointer) runs at most once; and once the
dispatch function is no longer the initializer, no sequence of further
calls ever changes it (or any other part of the process state). -/
theorem C1_dispatcher_state_machine (r : OpenResults) (wv : Int → List WvOutcome) :
    (∀ d : DispatchFn,
      d = DispatchFn.init ∨ d = DispatchFn.kernel ∨ d = DispatchFn.null) ∧
    (∀ ids : List Nat, numInitRuns r wv logInitialState ids ≤ 1) ∧
    (∀ (s : LogState) (i : Nat),
      (writeCall r wv s i).1 = s ∨
        (s.wtl = DispatchFn.init ∧
          ((writeCall r wv s i).1.wtl = DispatchFn.kernel ∨
            (writeCall r wv s i).1.wtl = DispatchFn.null))) ∧
    (∀ (s : LogState) (ids : List Nat),
      s.wtl ≠ DispatchFn.init → runWrites r wv s ids = s) := by
  refine ⟨fun d => by cases d <;> simp, fun ids => numInitRuns_le_one r wv _ ids, ?_, ?_⟩
  · intro s i
    by_cases h : s.wtl = DispatchFn.init
    · refine Or.inr ⟨h, ?_⟩
      unfold writeCall
      rw [h]
      exact initBody_wtl_of_init r s h
    · exact Or.inl (writeCall_fst_of_ne_init r wv s i h)
  · intro s ids h
    exact runWrites_of_ne_init r wv s ids h

/-- Witness for C1 at concrete inputs: a run of three calls from the
initial state executes the initialization at most once, and a state
already holding the null dispatcher is untouched by further calls. -/
theorem C1_witness :
    numInitRuns ⟨-1, -1, -1, -1⟩ (fun _ => []) logInitialState [0, 1, 2] ≤ 1 ∧
    runWrites ⟨-1, -1, -1, -1⟩ (fun _ => [])
        ⟨DispatchFn.null, -1, -1, -1, -1, []⟩ [0, 3] =
      ⟨DispatchFn.null, -1, -1, -1, -1, []⟩ :=
  ⟨(C1_dispatcher_state_machine ⟨-1, -1, -1, -1⟩ (fun _ => [])).2.1 [0, 1, 2],
   (C1_dispatcher_state_machine ⟨-1, -1, -1, -1⟩ (fun _ => [])).2.2.2
     ⟨DispatchFn.null, -1, -1, -1, -1, []⟩ [0, 3] (by decide)⟩

/-- C3 counterexample: in the Null dispatcher state, a write to the
out-of-range channel id 7 returns exactly the same error (-1, the
"channel unavailable" result) as a write to the valid channel id 0; so
there is no distinct "bad channel" error in the Null state, refuting
the claim that such a distinct error is returned "in every dispatcher
state (LiveKernel and Null alike)". -/
theorem C3_counterexample :
    (writeCall ⟨-1, -1, -1, -1⟩ (fun _ => [WvOutcome.ok 0])
        ⟨DispatchFn.null, -1, -1, -1, -1, []⟩ 7).2 =
      (writeCall ⟨-1, -1, -1, -1⟩ (fun _ => [WvOutcome.ok 0])
        ⟨DispatchFn.null, -1, -1, -1, -1, []⟩ 0).2 ∧
    (writeCall ⟨-1, -1, -1, -1⟩ (fun _ => [WvOutcome.ok 0])
        ⟨DispatchFn.null, -1, -1, -1, -1, []⟩ 7).2 = some (-1) := by
  constructor <;> rfl

/-- C3 amended: only the LiveKernel dispatcher distinguishes a bad
channel — an id ≥ LOG_ID_MAX returns the distinct EBADF value for every
writev oracle (so without invoking the transport's vectored write); in
the Null state every write, valid channel or not, returns the uniform
-1 "channel unavailable" error (also without touching the transport). -/
theorem C3_bad_channel_error (r : OpenResults) (wv : Int → List WvOutcome)
    (s : LogState) (id : Nat) :
    (s.wtl = DispatchFn.kernel → idMax ≤ id → (writeCall r wv s id).2 = some EBADF) ∧
    (s.wtl = DispatchFn.null → (writeCall r wv s id).2 = some (-1)) := by
  constructor
  · intro hk hid
    unfold writeCall
    rw [hk]
    dsimp only
    unfold write_to_log_kernel
    rw [if_neg (by omega)]
  · intro hn
    unfold writeCall
    rw [hn]
    rfl

/-- Witness for C3's amended theorem: channel 9 in a LiveKernel state
yields EBADF, channel 2 in a Null state yields -1. -/
theorem C3_witness :
    (writeCall ⟨1, 2, 3, 4⟩ (fun _ => []) ⟨DispatchFn.kernel, 3, 4, 5, 6, []⟩ 9).2 =
      some EBADF ∧
    (writeCall ⟨1, 2, 3, 4⟩ (fun _ => []) ⟨DispatchFn.null, -1, -1, -1, -1, []⟩ 2).2 =
      some (-1) :=
  ⟨(C3_bad_channel_error ⟨1, 2, 3, 4⟩ (fun _ => [])
      ⟨DispatchFn.kernel, 3, 4, 5, 6, []⟩ 9).1 rfl (by decide),
   (C3_bad_channel_error ⟨1, 2, 3, 4⟩ (fun _ => [])
      ⟨DispatchFn.null, -1, -1, -1, -1, []⟩ 2).2 rfl⟩

/-- C2 counterexample: with Main's open failing (-1) and Radio, Events,
System opening as 3, 5, 7, initialization does reach the Null state with
Main/Radio/Events reset to -1, but the System descriptor 7 — a handle
opened during that very initialization attempt — remains open and
remains in System's registry slot; this refutes "no channel handle
opened during that initialization attempt remains open — including any
handle that did open successfully". -/
theorem C2_counterexample :
    (initBody ⟨-1, 3, 5, 7⟩ logInitialState).wtl = DispatchFn.null ∧
    (initBody ⟨-1, 3, 5, 7⟩ logInitialState).openFds = [7] ∧
    (initBody ⟨-1, 3, 5, 7⟩ logInitialState).fdSystem = 7 := by
  refine ⟨?_, ?_, ?_⟩ <;> rfl

/-- C2 amended: if any of Main, Radio, Events fails to open,
initialization ends in the Null state with the Main, Radio and Events
registry entries at the unopened sentinel -1 and their handles closed;
but the System handle, when its own open succeeded, is not closed — it
stays open and stays in System's registry entry (only when System's
open also failed is its entry -1, via the aliasing to the already-reset
Main entry). -/
theorem C2_failed_init_cleanup (r : OpenResults)
    (h : r.main < 0 ∨ r.radio < 0 ∨ r.events < 0) :
    initBody r logInitialState =
      { wtl := DispatchFn.null
        fdMain := -1
        fdRadio := -1
        fdEvents := -1
        fdSystem := if r.system < 0 then -1 else r.system
        openFds := if r.system < 0 then [] else [r.system] } := by
  have hc := cleanup_openFds r
  unfold initBody
  rw [if_pos (show logInitialState.wtl = DispatchFn.init from rfl)]
  dsimp only [logInitialState]
  rw [if_pos h]
  dsimp only
  by_cases hs : r.system < 0
  · rw [if_pos hs, if_pos hs, if_pos hs]
    have : (if 0 ≤ r.system then [r.system] else []) = [] := by
      rw [if_neg (by omega)]
    rw [this] at hc
    rw [hc]
  · rw [if_neg hs, if_neg hs, if_neg hs]
    have : (if 0 ≤ r.system then [r.system] else []) = [r.system] := by
      rw [if_pos (by omega)]
    rw [this] at hc
    rw [hc]

/-- Witness for C2's amended theorem: Main fails, Radio/Events/System
open as 3, 5, 7; the result is the Null state keeping descriptor 7
open in System's slot. -/
theorem C2_witness :
    initBody ⟨-1, 3, 5, 7⟩ logInitialState =
      { wtl := DispatchFn.null
        fdMain := -1
        fdRadio := -1
        fdEvents := -1
        fdSystem := if (7 : Int) < 0 then -1 else 7
        openFds := if (7 : Int) < 0 then [] else [7] } :=
  C2_failed_init_cleanup ⟨-1, 3, 5, 7⟩ (Or.inl (by decide))

/-- C4: when Main, Radio and Events all open and only System's open
fails, initialization installs the LiveKernel dispatcher with System's
registry entry aliased to Main's handle; the state is never modified by
any later sequence of write calls, and every write to the System
channel runs the transport's vectored write on Main's descriptor. -/
theorem C4_system_aliased_to_main (r : OpenResults)
    (hm : 0 ≤ r.main) (hr : 0 ≤ r.radio) (he : 0 ≤ r.events) (hs : r.system < 0) :
    (initBody r logInitialState).wtl = DispatchFn.kernel ∧
    (initBody r logInitialState).fdSystem = r.main ∧
    (initBody r logInitialState).fdMain = r.main ∧
    (∀ (r2 : OpenResults) (wv : Int → List WvOutcome) (ids : List Nat),
      runWrites r2 wv (initBody r logInitialState) ids = initBody r logInitialState) ∧
    (∀ (r2 : OpenResults) (wv : Int → List WvOutcome),
      (writeCall r2 wv (initBody r logInitialState) idSystem).2 = writevLoop (wv r.main)) := by
  have hbody : initBody r logInitialState =
      { wtl := DispatchFn.kernel
        fdMain := r.main
        fdRadio := r.radio
        fdEvents := r.events
        fdSystem := r.main
        openFds := doOpen r.system (doOpen r.events (doOpen r.radio (doOpen r.main []))) } := by
    have hcond : ¬(r.main < 0 ∨ r.radio < 0 ∨ r.events < 0) := by omega
    unfold initBody
    rw [if_pos (show logInitialState.wtl = DispatchFn.init from rfl)]
    dsimp only [logInitialState]
    rw [if_neg hcond]
    dsimp only
    rw [if_pos hs]
  rw [hbody]
  refine ⟨rfl, rfl, rfl, ?_, ?_⟩
  · intro r2 wv ids
    exact runWrites_of_ne_init r2 wv _ ids (by simp)
  · intro r2 wv
    rfl

/-- Witness for C4: Main/Radio/Events open as 3, 4, 5 and System fails;
System's slot holds 3 (= Main's descriptor) and a System write runs the
vectored write on descriptor 3. -/
theorem C4_witness :
    (initBody ⟨3, 4, 5, -1⟩ logInitialState).fdSystem = 3 ∧
    (writeCall ⟨0, 0, 0, 0⟩ (fun _ => [WvOutcome.ok 11])
        (initBody ⟨3, 4, 5, -1⟩ logInitialState) idSystem).2 =
      writevLoop ((fun _ => [WvOutcome.ok 11]) (3 : Int)) :=
  ⟨(C4_system_aliased_to_main ⟨3, 4, 5, -1⟩ (by decide) (by decide) (by decide)
      (by decide)).2.1,
   (C4_system_aliased_to_main ⟨3, 4, 5, -1⟩ (by decide) (by decide) (by decide)
      (by decide)).2.2.2.2 ⟨0, 0, 0, 0⟩ (fun _ => [WvOutcome.ok 11])⟩

/-- C8: in the LiveKernel state a write to a valid channel runs the
transport's vectored write on that channel's descriptor and retries
exactly the interrupted-by-signal failures: if the transport produces
any finite sequence of EINTR failures followed by a non-EINTR outcome,
the call returns that outcome's value — the byte count on success,
-1 on a non-retryable error.  (Taking the EINTR sequence empty shows a
non-EINTR failure is returned immediately, never retried.) -/
theorem C8_kernel_write_retries (r : OpenResults) (wv : Int → List WvOutcome)
    (s : LogState) (id : Nat) (pre : List WvOutcome) (last : WvOutcome)
    (hk : s.wtl = DispatchFn.kernel) (hid : id < idMax)
    (hwv : wv (fdOf s id) = pre ++ [last])
    (hpre : ∀ o ∈ pre, isEintrFail o = true)
    (hlast : isEintrFail last = false) :
    (writeCall r wv s id).2 = some (wvRet last) := by
  unfold writeCall
  rw [hk]
  dsimp only
  unfold write_to_log_kernel
  rw [if_pos hid, hwv, writevLoop_eintr_append pre [last] hpre]
  simp [writevLoop, hlast]

/-- Witness for C8: two EINTR failures then a 42-byte success on Main's
descriptor return 42. -/
theorem C8_witness :
    (writeCall ⟨3, 4, 5, 6⟩ (fun _ => [WvOutcome.err 4, WvOutcome.err 4, WvOutcome.ok 42])
        ⟨DispatchFn.kernel, 3, 4, 5, 6, []⟩ 0).2 = some 42 :=
  C8_kernel_write_retries ⟨3, 4, 5, 6⟩
    (fun _ => [WvOutcome.err 4, WvOutcome.err 4, WvOutcome.ok 42])
    ⟨DispatchFn.kernel, 3, 4, 5, 6, []⟩ 0
    [WvOutcome.err 4, WvOutcome.err 4] (WvOutcome.ok 42)
    rfl (by decide) rfl (by decide) rfl

/-- C5: the tag "RIL-foo" requested at the Main channel is rerouted to
Radio with the tag rewritten to the deprecation marker followed by the
original tag ("use-Rlog/RLOG-RIL-foo"); and for every denylisted tag the
rewritten tag is what `snprintf` leaves in the fixed 32-byte buffer —
the marker-plus-tag string truncated to at most 31 characters (so the
terminating NUL always fits), cut to exactly 31 whenever the combined
string plus terminator would overflow the buffer. -/
theorem C5_ril_reroute :
    (∀ (p : Nat) (m : CStr),
      android_log_write_model p (some (str "RIL-foo")) m =
        (idRadio, [SegData.prio p, SegData.cstr (str "use-Rlog/RLOG-RIL-foo"),
          SegData.cstr m])) ∧
    (∀ t : CStr, isDenylistedWrite t = true →
      rewriteTag t = (str "use-Rlog/RLOG-" ++ t).take 31 ∧
      (rewriteTag t).length ≤ 31 ∧
      (32 ≤ (str "use-Rlog/RLOG-" ++ t).length + 1 → (rewriteTag t).length = 31)) := by
  constructor
  · intro p m
    rfl
  · intro t _
    have h14 : (str "use-Rlog/RLOG-").length = 14 := rfl
    have hlen : (rewriteTag t).length = min 31 (14 + t.length) := by
      simp only [rewriteTag, List.length_take, List.length_append, h14]
    refine ⟨rfl, ?_, ?_⟩
    · omega
    · intro hov
      simp only [List.length_append, h14] at hov
      omega

/-- Witness for C5 at a denylisted tag long enough to overflow the
32-byte buffer: the rewritten tag is cut to exactly 31 characters. -/
theorem C5_witness :
    (rewriteTag (str "RIL-01234567890123456789012345")).length ≤ 31 ∧
    (rewriteTag (str "RIL-01234567890123456789012345")).length = 31 :=
  ⟨(C5_ril_reroute.2 (str "RIL-01234567890123456789012345") (by decide)).2.1,
   (C5_ril_reroute.2 (str "RIL-01234567890123456789012345") (by decide)).2.2
     (by decide)⟩

/-- C6: framing a text record produces exactly three segments in order —
the 1-byte priority, the NUL-terminated tag, the NUL-terminated message
(lengths 1, strlen(tag)+1, strlen(msg)+1); for priority 4, tag "X",
message "hello" the segment lengths are 1, 2, 6 in that order; a NULL
tag is framed as the empty string. -/
theorem C6_record_framing :
    ((android_log_write_model 4 (some (str "X")) (str "hello")).2 =
      [SegData.prio 4, SegData.cstr (str "X"), SegData.cstr (str "hello")]) ∧
    ((android_log_write_model 4 (some (str "X")) (str "hello")).2.map segLen =
      [1, 2, 6]) ∧
    (∀ (p : Nat) (t : Option CStr) (m : CStr), ∃ t2 : CStr,
      (android_log_write_model p t m).2 =
        [SegData.prio p, SegData.cstr t2, SegData.cstr m] ∧
      (android_log_write_model p t m).2.map segLen =
        [1, t2.length + 1, m.length + 1]) ∧
    (∀ (p : Nat) (m : CStr),
      (android_log_write_model p none m).2 =
        [SegData.prio p, SegData.cstr [], SegData.cstr m]) := by
  refine ⟨rfl, rfl, ?_, ?_⟩
  · intro p t m
    unfold android_log_write_model
    dsimp only
    split
    · exact ⟨rewriteTag (t.getD []), rfl, by simp [segLen]⟩
    · exact ⟨t.getD [], rfl, by simp [segLen]⟩
  · intro p m
    rfl

/-- C7 counterexample: for a 1010-character condition string the
composed assert message is not "Assertion failed: " followed by the
condition — `snprintf` into the 1024-byte buffer truncates it to 1023
characters, refuting "exactly" as the claim states it. -/
theorem C7_counterexample :
    assertMessage (some (List.replicate 1010 'a')) none ≠
      str "Assertion failed: " ++ List.replicate 1010 'a' := by
  intro hEq
  have hlen := congrArg List.length hEq
  have h18 : (str "Assertion failed: ").length = 18 := rfl
  simp only [assertMessage, LOG_BUF_SIZE, List.length_take, List.length_append,
    List.length_replicate, h18] at hlen
  omega

/-- C7 amended: assert-fail composes the formatted text truncated to
the 1024-byte buffer if a format is given; else "Assertion failed: "
followed by the condition, likewise truncated to the buffer (exact
whenever the combined string fits, e.g. "Assertion failed: x>0" for
condition "x>0"); else exactly "Unspecified assertion failed".  It
writes that message through the text-record path at the fatal priority
and ends in the trap — never returning control — for every dispatcher
state and every write result. -/
theorem C7_assert_message (r : OpenResults) (wv : Int → List WvOutcome) (s : LogState)
    (cond : Option CStr) (tag : Option CStr) (fmtMsg : Option CStr) :
    (android_log_assert r wv s cond tag fmtMsg =
      AssertOutcome.trap ANDROID_LOG_FATAL tag (assertMessage cond fmtMsg)
        ((android_log_write_full r wv s ANDROID_LOG_FATAL tag
          (assertMessage cond fmtMsg)).2)) ∧
    (∀ st : Option Int,
      android_log_assert r wv s cond tag fmtMsg ≠ AssertOutcome.returns st) ∧
    (∀ m : CStr, assertMessage cond (some m) = m.take 1023) ∧
    (∀ c : CStr, assertMessage (some c) none =
      (str "Assertion failed: " ++ c).take 1023) ∧
    (∀ c : CStr, (str "Assertion failed: " ++ c).length ≤ 1023 →
      assertMessage (some c) none = str "Assertion failed: " ++ c) ∧
    assertMessage (some (str "x>0")) none = str "Assertion failed: x>0" ∧
    assertMessage none none = str "Unspecified assertion failed" := by
  refine ⟨rfl, ?_, fun m => rfl, fun c => rfl, ?_, rfl, rfl⟩
  · intro st h
    simp [android_log_assert] at h
  · intro c hc
    exact List.take_of_length_le hc

/-- Witness for C7: at condition "x>0" (which fits the buffer) the
message is exactly "Assertion failed: " followed by the condition. -/
theorem C7_witness :
    assertMessage (some (str "x>0")) none = str "Assertion failed: " ++ str "x>0" :=
  (C7_assert_message ⟨-1, -1, -1, -1⟩ (fun _ => []) logInitialState
    (some (str "x>0")) none none).2.2.2.2.1 (str "x>0") (by decide)

/-- C10: the two text-write entry points apply different denylists —
`__android_log_write` (default channel) reroutes "QC-NETMGR-LIB",
"QC-QDP" and "Diag_Lib" to Radio with the deprecation-marker tag, while
`__android_log_buf_write` with channel Main leaves those same tags and
the channel unchanged, for every priority and message. -/
theorem C10_denylists_differ (p : Nat) (m : CStr) :
    (android_log_write_model p (some (str "QC-NETMGR-LIB")) m =
      (idRadio, [SegData.prio p, SegData.cstr (str "use-Rlog/RLOG-QC-NETMGR-LIB"),
        SegData.cstr m])) ∧
    (android_log_write_model p (some (str "QC-QDP")) m =
      (idRadio, [SegData.prio p, SegData.cstr (str "use-Rlog/RLOG-QC-QDP"),
        SegData.cstr m])) ∧
    (android_log_write_model p (some (str "Diag_Lib")) m =
      (idRadio, [SegData.prio p, SegData.cstr (str "use-Rlog/RLOG-Diag_Lib"),
        SegData.cstr m])) ∧
    (android_log_buf_write_model idMain p (some (str "QC-NETMGR-LIB")) m =
      (idMain, [SegData.prio p, SegData.cstr (str "QC-NETMGR-LIB"), SegData.cstr m])) ∧
    (android_log_buf_write_model idMain p (some (str "QC-QDP")) m =
      (idMain, [SegData.prio p, SegData.cstr (str "QC-QDP"), SegData.cstr m])) ∧
    (android_log_buf_write_model idMain p (some (str "Diag_Lib")) m =
      (idMain, [SegData.prio p, SegData.cstr (str "Diag_Lib"), SegData.cstr m])) := by
  refine ⟨?_, ?_, ?_, ?_, ?_, ?_⟩ <;> rfl

/-- C9: the device-availability query probes only on its first call and
caches the answer for the rest of the process: for every sequence of
calls (whatever the probe would have answered later), the first call
probes and returns the probe's result, and every later call returns
that same boolean without probing. -/
theorem C9_dev_available_caches (p : Bool) (ps : List Bool) :
    runDevAvail GLogStatus.uninit (p :: ps) =
      (p, true) :: ps.map (fun _ => (p, false)) := by
  cases p with
  | true => simp [runDevAvail, android_log_dev_available, runDevAvail_avail ps]
  | false => simp [runDevAvail, android_log_dev_available, runDevAvail_notAvail ps]

end LogdWrite
